import Mathlib

set_option autoImplicit false

namespace RecLog

/-!
Shallow embedding of the RecLog recorder lifecycle layer:
src/Recorder/video_recorder.py, src/Recorder/asciinema_recorder.py,
src/Recorder/composite_recorder.py and src/tmux/tmux_session.py.

External facts (process liveness, file existence and size, the wall clock,
tmux session lifetime) are carried in explicit world records; queries of the
outside world (poll of a process, has-session) read those records, while
mutating external actions (spawn, terminate, write to stdin, kill) are logged
as explicit events so that side-effect claims are statements about event lists.
A recorder result is the Python return dictionary: the empty dictionary is
`none`, the populated dictionary `some` of a payload with its outputs and
metadata entries.
-/

/-- The populated stop-result dictionary: keys "outputs" and "metadata",
each an insertion-ordered association list. -/
structure RecPayload where
  outputs : List (String × String)
  metadata : List (String × String)
deriving Repr, DecidableEq

/-- Return value of stop_recording: the empty dictionary is `none`. -/
abbrev RecResult := Option RecPayload

/-- The quality_presets dictionary of VideoRecorder._get_video_settings
(video_recorder.py lines 52-57), as a lookup returning `none` off the keys. -/
def quality_presets (q : String) : Option (List String) :=
  if q = "low" then some ["-c:v", "libx264", "-preset", "ultrafast", "-crf", "28"]
  else if q = "medium" then some ["-c:v", "libx264", "-preset", "medium", "-crf", "23"]
  else if q = "high" then some ["-c:v", "libx264", "-preset", "slow", "-crf", "18"]
  else none

/-- VideoRecorder._get_video_settings: dict .get with the "medium" entry as
the default for unrecognized quality names (video_recorder.py line 60). -/
def get_video_settings (q : String) : List String :=
  (quality_presets q).getD ["-c:v", "libx264", "-preset", "medium", "-crf", "23"]

/-- The ffmpeg subprocess handle: whether poll() reports it alive and whether
its stdin pipe has been closed. -/
structure VProc where
  alive : Bool
  stdinClosed : Bool
deriving Repr, DecidableEq

/-- State of a VideoRecorder instance: the fields of video_recorder.py that
the lifecycle methods read or write. `start_time` and the world clock are in
whole seconds. -/
structure VideoRecorder where
  project_name : String
  video_quality : String
  framerate : Nat
  output_file : String
  start_time : Nat
  process : Option VProc
  thread : Option Bool
  _is_recording : Bool
deriving Repr, DecidableEq

/-- External facts consulted by VideoRecorder.stop_recording: the state of the
target output file at inspection time, the wall clock, and whether the ffmpeg
process fails to exit within the 10-second grace window. -/
structure VWorld where
  fileExists : Bool
  fileSize : Nat
  now : Nat
  ffmpegWaitTimesOut : Bool
deriving Repr, DecidableEq

/-- Observable external actions of VideoRecorder. -/
inductive VEv
  | mkdirOutput
  | spawnThread
  | spawnFfmpeg
  | writeStdinQ
  | waitProc
  | killProc
  | joinThread
deriving Repr, DecidableEq

/-- VideoRecorder.is_recording (video_recorder.py lines 133-135): the flag and
a live process. In the source this is a plain method, not the base-class
property; the liveness poll is the read of the process field here. -/
def VideoRecorder.is_recording (v : VideoRecorder) : Bool :=
  let process_running := match v.process with
    | some p => p.alive
    | none => false
  v._is_recording && process_running

/-- VideoRecorder.start_recording (video_recorder.py lines 71-89). The
already-recording guard present at lines 76-78 is commented out in the source,
so the body runs unconditionally: setup (mkdir), set the flag, spawn the
recording thread, which launches a fresh ffmpeg process with an open stdin. -/
def VideoRecorder.start_recording (v : VideoRecorder) : VideoRecorder × List VEv :=
  ({ v with _is_recording := true,
            thread := some true,
            process := some { alive := true, stdinClosed := false } },
   [VEv.mkdirOutput, VEv.spawnThread, VEv.spawnFfmpeg])

/-- Python divmod decomposition used at video_recorder.py lines 176-178:
duration.seconds split into hours, minutes, seconds and formatted. -/
def format_hms (s : Nat) : String :=
  toString (s / 3600) ++ "h_" ++ toString ((s % 3600) / 60) ++ "m_" ++
    toString ((s % 3600) % 60) ++ "s"

/-- The .seconds field of a Python timedelta between two clock readings in
whole seconds: the within-day remainder, always non-negative. -/
def duration_seconds (now start_time : Nat) : Nat :=
  (now - start_time) % 86400

/-- VideoRecorder.stop_recording (video_recorder.py lines 137-202). When not
recording (flag unset or process dead): prints a diagnostic, resets the
process and thread handles and returns the empty dict — no external action.
When recording: clears the flag, gracefully stops ffmpeg (write q to stdin
when open, bounded wait, kill on timeout, join the thread), then inspects the
target file: populated result only when the file exists with positive size. -/
def VideoRecorder.stop_recording (v : VideoRecorder) (w : VWorld) :
    VideoRecorder × RecResult × List VEv :=
  if v.is_recording = false then
    ({ v with process := none, thread := none }, none, [])
  else
    let stdinEvs : List VEv := match v.process with
      | some p => if p.stdinClosed then [] else [VEv.writeStdinQ]
      | none => []
    let waitEvs : List VEv :=
      if w.ffmpegWaitTimesOut then [VEv.waitProc, VEv.killProc, VEv.waitProc]
      else [VEv.waitProc]
    let joinEvs : List VEv := match v.thread with
      | some true => [VEv.joinThread]
      | _ => []
    let final_file_exists := decide (v.output_file ≠ "") && w.fileExists
    let final_file_has_size := final_file_exists && decide (w.fileSize > 0)
    let result : RecResult :=
      if final_file_has_size then
        some { outputs := [("video", v.output_file)],
               metadata := [("project_name", v.project_name),
                            ("duration", toString (w.now - v.start_time)),
                            ("time", format_hms (duration_seconds w.now v.start_time))] }
      else none
    ({ v with _is_recording := false, process := none, thread := none },
     result, stdinEvs ++ waitEvs ++ joinEvs)

/-- Observable external actions of TmuxAsciinemaRecorder and its
TmuxSessionManager. -/
inductive TEv
  | spawnAsciinema
  | warnAlreadyRecording
  | checkSession
  | sleepOne
  | terminateSession
deriving Repr, DecidableEq

/-- State of a TmuxAsciinemaRecorder instance (asciinema_recorder.py): session
identity, the three artifact paths and the recording flag. -/
structure TmuxRecorder where
  project_name : String
  tmux_session_name : String
  asciinema_file : String
  zsh_history_file : String
  tmux_log_dir : String
  _is_recording : Bool
deriving Repr, DecidableEq

/-- External facts about the tmux session: whether has-session succeeds at
stop time, and for how many polls of the wait loop the session is still seen
before it disappears. -/
structure TWorld where
  sessionExists : Bool
  sessionAliveFor : Nat
deriving Repr, DecidableEq

/-- TmuxAsciinemaRecorder.start_recording (asciinema_recorder.py lines 82-91):
warn-and-return when the flag is already set, otherwise set it and launch the
asciinema subprocess attached to the session. -/
def TmuxRecorder.start_recording (t : TmuxRecorder) : TmuxRecorder × List TEv :=
  if t._is_recording then (t, [TEv.warnAlreadyRecording])
  else ({ t with _is_recording := true }, [TEv.spawnAsciinema])

/-- TmuxAsciinemaRecorder.stop_recording (asciinema_recorder.py lines 93-117):
empty dictionary with no external action when the flag is unset; otherwise
clear the flag, tear down the tmux session (existence check, terminate only if
it still exists) and package the three artifact paths unconditionally. -/
def TmuxRecorder.stop_recording (t : TmuxRecorder) (w : TWorld) :
    TmuxRecorder × RecResult × List TEv :=
  if t._is_recording = false then (t, none, [])
  else
    let cleanupEvs :=
      TEv.checkSession :: (if w.sessionExists then [TEv.terminateSession] else [])
    ({ t with _is_recording := false },
     some { outputs := [("asciinema", t.asciinema_file),
                        ("zsh_history", t.zsh_history_file),
                        ("tmux_logs", t.tmux_log_dir)],
            metadata := [("project_name", t.project_name)] },
     cleanupEvs)

/-- TmuxSessionManager.wait_for_exit (tmux_session.py lines 65-76): poll
has-session; break on absence, otherwise sleep one second and poll again. The
argument is the number of polls that still see the session alive. -/
def wait_for_exit_polls : Nat → List TEv
  | 0 => [TEv.checkSession]
  | n + 1 => TEv.checkSession :: TEv.sleepOne :: wait_for_exit_polls n

/-- TmuxAsciinemaRecorder.wait_for_completion (asciinema_recorder.py lines
119-127): enter the polling wait loop only when the flag is set. -/
def TmuxRecorder.wait_for_completion (t : TmuxRecorder) (w : TWorld) : List TEv :=
  if t._is_recording then wait_for_exit_polls w.sessionAliveFor else []

/-- Number of session-existence polls in a tmux event list. -/
def countPolls (evs : List TEv) : Nat :=
  evs.countP (fun e => e == TEv.checkSession)

/-- A test double for composite-level claims: a recorder with a variant name,
the base-class recording flag, and a prescribed stop behaviour (a normal
result, or a raised exception carried as an error message). -/
structure FakeRec where
  name : String
  _is_recording : Bool
  stopSpec : Except String RecResult
deriving Repr

/-- A member of the composite: one of the two concrete recorder variants of
the repository, or a test double. -/
inductive Member
  | tmuxRec (t : TmuxRecorder)
  | videoRec (v : VideoRecorder)
  | fakeRec (f : FakeRec)
deriving Repr

/-- Python type(recorder).__name__, the key used in the composite result
mapping. -/
def Member.variantName : Member → String
  | .tmuxRec _ => "TmuxAsciinemaRecorder"
  | .videoRec _ => "VideoRecorder"
  | .fakeRec f => f.name

/-- isinstance(recorder, TmuxAsciinemaRecorder). -/
def Member.isTmuxInstance : Member → Bool
  | .tmuxRec _ => true
  | _ => false

/-- isinstance(recorder, VideoRecorder). -/
def Member.isVideoInstance : Member → Bool
  | .videoRec _ => true
  | _ => false

/-- The truth value of the Python attribute expression recorder.is_recording
as evaluated without a call in composite_recorder.py (lines 80 and 149). The
base class declares is_recording as a property, so for the tmux recorder and
for a double the attribute is the boolean flag; VideoRecorder overrides it
with a plain method (video_recorder.py line 133), so for the video recorder
the attribute is a bound-method object, which is truthy in any state. -/
def Member.is_recording_attr : Member → Bool
  | .tmuxRec t => t._is_recording
  | .videoRec _ => true
  | .fakeRec f => f._is_recording

/-- Combined world record for composite runs. -/
structure World where
  tmux : TWorld
  video : VWorld
deriving Repr, DecidableEq

/-- Dispatch of start_recording over a member; doubles set their flag. -/
def Member.startRec : Member → Member
  | .tmuxRec t => .tmuxRec t.start_recording.1
  | .videoRec v => .videoRec v.start_recording.1
  | .fakeRec f => .fakeRec { f with _is_recording := true }

/-- Dispatch of stop_recording over a member. The two concrete variants never
raise out of stop (all their stop-time exceptions are caught internally);
doubles return their prescribed behaviour. -/
def Member.stopRec (w : World) : Member → Member × Except String RecResult
  | .tmuxRec t => (.tmuxRec (t.stop_recording w.tmux).1, .ok (t.stop_recording w.tmux).2.1)
  | .videoRec v => (.videoRec (v.stop_recording w.video).1, .ok (v.stop_recording w.video).2.1)
  | .fakeRec f => (.fakeRec f, f.stopSpec)

/-- Composite-level call log: which member (by object identity, modelled as a
numeric id) received which lifecycle call, and the one-second pause of the
start pre-hook. -/
inductive CEv
  | setupCall (id : Nat)
  | startCall (id : Nat)
  | sleepOne
  | stopCall (id : Nat)
  | waitCall (id : Nat)
deriving Repr, DecidableEq

/-- State of a CompositeRecorder (composite_recorder.py): the registered
members in registration order, keyed by object identity, the composite flag,
and the two distinguished references held as identities. -/
structure CompositeRecorder where
  recorders : List (Nat × Member)
  _is_recording : Bool
  _tmux_recorder : Option Nat
  _video_recorder : Option Nat
deriving Repr

/-- CompositeRecorder.__init__ with no recorders passed: empty collection,
flag down, both references None. -/
def CompositeRecorder.init : CompositeRecorder :=
  { recorders := [], _is_recording := false,
    _tmux_recorder := none, _video_recorder := none }

/-- In-place mutation of the member object with the given identity. -/
def updateById (id : Nat) (f : Member → Member) :
    List (Nat × Member) → List (Nat × Member)
  | [] => []
  | (i, m) :: rest =>
    if i = id then (i, f m) :: rest else (i, m) :: updateById id f rest

/-- Dereference a member identity. -/
def lookupById (id : Nat) : List (Nat × Member) → Option Member
  | [] => none
  | (i, m) :: rest => if i = id then some m else lookupById id rest

/-- CompositeRecorder.add_recorder (composite_recorder.py lines 33-44):
append when not already present, and remember the member as the tmux
reference when it is a TmuxAsciinemaRecorder instance, else as the video
reference when it is a VideoRecorder instance. -/
def CompositeRecorder.add_recorder (c : CompositeRecorder) (id : Nat)
    (m : Member) : CompositeRecorder :=
  if (c.recorders.map Prod.fst).contains id then c
  else
    { c with
      recorders := c.recorders ++ [(id, m)],
      _tmux_recorder :=
        if m.isTmuxInstance then some id else c._tmux_recorder,
      _video_recorder :=
        if !m.isTmuxInstance && m.isVideoInstance then some id
        else c._video_recorder }

/-- CompositeRecorder.setup (composite_recorder.py lines 59-64): setup on
every member in registration order. -/
def CompositeRecorder.setup (c : CompositeRecorder) : List CEv :=
  c.recorders.map (fun x => CEv.setupCall x.1)

/-- CompositeRecorder.start_recording (composite_recorder.py lines 67-92):
no-op when the composite flag is set; otherwise set the flag, then the video
pre-hook (start the referenced video recorder and sleep one second), then the
tmux hook, then every member that is neither distinguished reference, in
registration order. The post-start warning check compares the truthy
bound-method attribute and can never fire, so no warning event exists. -/
def CompositeRecorder.start_recording (c : CompositeRecorder) :
    CompositeRecorder × List CEv :=
  if c._is_recording then (c, [])
  else
    let c1 := { c with _is_recording := true }
    let step2 : List (Nat × Member) × List CEv :=
      match c1._video_recorder with
      | some vid => (updateById vid Member.startRec c1.recorders,
                     [CEv.startCall vid, CEv.sleepOne])
      | none => (c1.recorders, [])
    let step3 : List (Nat × Member) × List CEv :=
      match c1._tmux_recorder with
      | some tid => (updateById tid Member.startRec step2.1,
                     step2.2 ++ [CEv.startCall tid])
      | none => step2
    let isOther : Nat × Member → Bool := fun x =>
      decide (some x.1 ≠ c1._video_recorder) &&
      decide (some x.1 ≠ c1._tmux_recorder)
    let rs4 := step3.1.map (fun x => if isOther x then (x.1, x.2.startRec) else x)
    let evs4 := (step3.1.filter isOther).map (fun x => CEv.startCall x.1)
    ({ c1 with recorders := rs4 }, step3.2 ++ evs4)

/-- The member iteration of CompositeRecorder.stop_recording (lines 105-119):
stop each member in turn, accumulating non-empty results keyed by variant
name in dictionary insertion order; an exception from a member propagates at
once, leaving the already-mutated members in place and the members after the
raiser untouched and unstopped. -/
def stop_loop (w : World) :
    List (Nat × Member) → List (String × RecPayload) →
    List (Nat × Member) × Except String (List (String × RecPayload)) × List CEv
  | [], acc => ([], .ok acc, [])
  | (i, m) :: rest, acc =>
    match m.stopRec w with
    | (m1, .error e) => ((i, m1) :: rest, .error e, [CEv.stopCall i])
    | (m1, .ok r) =>
      let acc1 := match r with
        | some p => acc ++ [(m.variantName, p)]
        | none => acc
      let tail := stop_loop w rest acc1
      ((i, m1) :: tail.1, tail.2.1, CEv.stopCall i :: tail.2.2)

/-- CompositeRecorder.stop_recording (composite_recorder.py lines 94-121):
empty mapping and no member calls when the composite flag is down; otherwise
the flag is cleared first, then the members are stopped in registration
order. -/
def CompositeRecorder.stop_recording (c : CompositeRecorder) (w : World) :
    CompositeRecorder × Except String (List (String × RecPayload)) × List CEv :=
  if c._is_recording = false then (c, .ok [], [])
  else
    let r := stop_loop w c.recorders []
    ({ c with _is_recording := false, recorders := r.1 }, r.2.1, r.2.2)

/-- CompositeRecorder.wait_for_completion (composite_recorder.py lines
143-155): with a tmux reference, block on its wait; then, when a video
reference exists and its is_recording attribute is truthy (which, the
attribute being a bound method, it always is), stop the video recorder and
discard its result. Without a tmux reference, wait on every member. -/
def CompositeRecorder.wait_for_completion (c : CompositeRecorder) (w : World) :
    CompositeRecorder × List CEv :=
  match c._tmux_recorder with
  | some tid =>
    let evs1 := [CEv.waitCall tid]
    match c._video_recorder with
    | some vid =>
      let attrTruthy := match lookupById vid c.recorders with
        | some m => m.is_recording_attr
        | none => true
      if attrTruthy then
        ({ c with recorders := updateById vid (fun m => (m.stopRec w).1) c.recorders },
         evs1 ++ [CEv.stopCall vid])
      else (c, evs1)
    | none => (c, evs1)
  | none => (c, c.recorders.map (fun x => CEv.waitCall x.1))

/-!
Concrete states used as witnesses, counterexamples and scenario runs.
-/

/-- A freshly constructed video recorder: flag down, no handles. -/
def vFresh : VideoRecorder :=
  { project_name := "demo", video_quality := "low", framerate := 10,
    output_file := "demo_20260101_120000.mp4", start_time := 100,
    process := none, thread := none, _is_recording := false }

/-- A video recorder in the recording state: flag up, live ffmpeg process
with an open stdin, live thread. -/
def vRecording : VideoRecorder :=
  { vFresh with process := some { alive := true, stdinClosed := false },
                thread := some true, _is_recording := true }

/-- A video recorder that has already been stopped. -/
def vStopped : VideoRecorder :=
  { vFresh with _is_recording := false, process := none, thread := none }

/-- A world in which the target video file was written non-empty and ffmpeg
exits within the grace window. -/
def wFileOk : VWorld :=
  { fileExists := true, fileSize := 2048, now := 4000, ffmpegWaitTimesOut := false }

/-- A freshly constructed tmux recorder: flag down. -/
def tFresh : TmuxRecorder :=
  { project_name := "demo", tmux_session_name := "demo_20260101_120000",
    asciinema_file := "120000.cast", zsh_history_file := "120000.zsh_history",
    tmux_log_dir := "tmux_logs_dir", _is_recording := false }

/-- A tmux recorder in the recording state. -/
def tRecording : TmuxRecorder := { tFresh with _is_recording := true }

/-- A tmux world: the session still exists at stop time and survives two wait
polls before ending. -/
def twQuiet : TWorld := { sessionExists := true, sessionAliveFor := 2 }

/-- Combined world for composite runs. -/
def wAll : World := { tmux := twQuiet, video := wFileOk }

/-- Number of ffmpeg launches in a video event list. -/
def countFfmpegSpawns (evs : List VEv) : Nat :=
  evs.countP (fun e => e == VEv.spawnFfmpeg)

/-- Test doubles for the composite partial-failure claims: the first and the
third stop normally with non-empty results, the second raises. -/
def payloadA : RecPayload :=
  { outputs := [("artifact", "outA")], metadata := [] }

/-- Non-empty payload of the third double. -/
def payloadC : RecPayload :=
  { outputs := [("artifact", "outC")], metadata := [] }

/-- First double: stop succeeds with a non-empty result. -/
def fakeA : FakeRec :=
  { name := "FakeRecA", _is_recording := true, stopSpec := .ok (some payloadA) }

/-- Second double: stop raises. -/
def fakeB : FakeRec :=
  { name := "FakeRecB", _is_recording := true, stopSpec := .error "boom" }

/-- Third double: stop succeeds with a non-empty result. -/
def fakeC : FakeRec :=
  { name := "FakeRecC", _is_recording := true, stopSpec := .ok (some payloadC) }

/-- A recording composite holding the three doubles in registration order. -/
def compABC : CompositeRecorder :=
  { recorders := [(1, .fakeRec fakeA), (2, .fakeRec fakeB), (3, .fakeRec fakeC)],
    _is_recording := true, _tmux_recorder := none, _video_recorder := none }

/-- A composite registered through add_recorder with a tmux recorder, a video
recorder and one further member. -/
def compVT : CompositeRecorder :=
  ((CompositeRecorder.init.add_recorder 1 (.tmuxRec tFresh)).add_recorder 2
      (.videoRec vFresh)).add_recorder 3 (.fakeRec fakeA)

/-- A recording composite whose video recorder has already stopped, as seen
by wait_for_completion after the tmux session ends. -/
def compWaitBug : CompositeRecorder :=
  { recorders := [(1, .tmuxRec tRecording), (2, .videoRec vStopped)],
    _is_recording := true, _tmux_recorder := some 1, _video_recorder := some 2 }

/-- The composite of the end-to-end video scenario right after registration:
a tmux recorder and a video recorder added through add_recorder. -/
def compC3 : CompositeRecorder :=
  (CompositeRecorder.init.add_recorder 1 (.tmuxRec tFresh)).add_recorder 2
    (.videoRec vFresh)

/-- The end-to-end video scenario: start the composite, wait for completion
(the tmux session ends, the video file is written non-empty), then stop. -/
def scenC3 : CompositeRecorder × Except String (List (String × RecPayload)) × List CEv :=
  let c1 := compC3.start_recording.1
  let c2 := (c1.wait_for_completion wAll).1
  c2.stop_recording wAll

/-- The keys of the result mapping of the end-to-end video scenario. -/
def scenC3_keys : List String :=
  match scenC3.2.1 with
  | .ok l => l.map Prod.fst
  | .error _ => []

/-- The result the video recorder produced when the composite auto-stopped it
inside wait_for_completion during the scenario — the value the composite
discards. -/
def scenC3_autostop : RecResult :=
  (vFresh.start_recording.1.stop_recording wAll.video).2.1

/-- Whether a stop result carries a "video" output entry. -/
def RecResult.hasVideoOutput : RecResult → Bool
  | some p => p.outputs.any (fun kv => kv.1 == "video")
  | none => false

/-!
Theorems.
-/

/-- C6: the quality-preset resolution is total: "low" yields the ultrafast
preset with quality factor 28, "medium" the medium preset with factor 23,
"high" the slow preset with factor 18, and every other string resolves to
exactly the "medium" parameters. -/
theorem get_video_settings_total :
    get_video_settings "low" =
      ["-c:v", "libx264", "-preset", "ultrafast", "-crf", "28"] ∧
    get_video_settings "medium" =
      ["-c:v", "libx264", "-preset", "medium", "-crf", "23"] ∧
    get_video_settings "high" =
      ["-c:v", "libx264", "-preset", "slow", "-crf", "18"] ∧
    ∀ q : String, q ≠ "low" → q ≠ "medium" → q ≠ "high" →
      get_video_settings q = get_video_settings "medium" := by
  refine ⟨rfl, rfl, rfl, fun q h1 h2 h3 => ?_⟩
  simp [get_video_settings, quality_presets, h1, h2, h3]

/-- Witness for C6: an unrecognized preset name resolves to the "medium"
parameters. -/
theorem get_video_settings_total_witness :
    get_video_settings "ultra" = get_video_settings "medium" :=
  get_video_settings_total.2.2.2 "ultra" (by decide) (by decide) (by decide)

/-- C2, evaluated at the failing input: a second start_recording on a video
recorder already in the recording state launches a second ffmpeg process (the
already-recording guard is commented out), while the tmux recorder correctly
turns the second call into a warn-and-no-op. This refutes the claim for the
screen/video variant. -/
theorem video_double_start_spawns_twice :
    countFfmpegSpawns (vFresh.start_recording.2 ++
      vFresh.start_recording.1.start_recording.2) = 2 ∧
    tFresh.start_recording.1.start_recording =
      (tFresh.start_recording.1, [TEv.warnAlreadyRecording]) := by
  exact ⟨rfl, rfl⟩

/-- C4, evaluated at the failing input: after the tmux wait returns, the
composite invokes stop_recording on the video recorder even though that
recorder is not recording, because the is_recording attribute is a truthy
bound method rather than the base-class property. -/
theorem composite_wait_stops_nonrecording_video :
    (compWaitBug.wait_for_completion wAll).2 =
      [CEv.waitCall 1, CEv.stopCall 2] ∧
    vStopped.is_recording = false := by
  exact ⟨rfl, rfl⟩

/-- C3, evaluated at the failing input: in the documented end-to-end sequence
the auto-stop inside wait_for_completion produces a populated video result,
but that value is discarded, and the final mapping of the composite stop
holds exactly one entry, keyed by the terminal-recorder variant name. -/
theorem end_to_end_video_result_lost :
    scenC3_keys = ["TmuxAsciinemaRecorder"] ∧
    RecResult.hasVideoOutput scenC3_autostop = true := by
  exact ⟨rfl, rfl⟩

/-- C8: a recorder that is not in the recording state treats stop_recording
as a benign no-op: the tmux variant returns the empty result with no session
lookup or termination and an unchanged state; the video variant returns the
empty result with no external action, changing nothing but the process and
thread handles, which it resets. -/
theorem stop_when_idle_noop (t : TmuxRecorder) (tw : TWorld)
    (v : VideoRecorder) (vw : VWorld)
    (ht : t._is_recording = false) (hv : v.is_recording = false) :
    t.stop_recording tw = (t, none, []) ∧
    v.stop_recording vw = ({ v with process := none, thread := none }, none, []) := by
  constructor
  · simp [TmuxRecorder.stop_recording, ht]
  · simp [VideoRecorder.stop_recording, hv]

/-- Witness for C8 at freshly constructed recorders. -/
theorem stop_when_idle_noop_witness :
    tFresh.stop_recording twQuiet = (tFresh, none, []) ∧
    vFresh.stop_recording wFileOk =
      ({ vFresh with process := none, thread := none }, none, []) :=
  stop_when_idle_noop tFresh twQuiet vFresh wFileOk (by rfl) (by rfl)

/-- The wait loop of TmuxSessionManager.wait_for_exit always performs one
more poll than the number of polls that still see the session. -/
theorem countPolls_wait_for_exit_polls (n : Nat) :
    countPolls (wait_for_exit_polls n) = n + 1 := by
  induction n with
  | zero => rfl
  | succ n ih =>
    simp only [wait_for_exit_polls, countPolls, List.countP_cons] at ih ⊢
    simp at ih ⊢
    omega

/-- C10: the wait of the tmux recorder does nothing — in particular performs
not a single session-existence poll — exactly when the recording flag is
down; the polling loop is entered exactly when the flag is set. -/
theorem tmux_wait_noop_iff_idle (t : TmuxRecorder) (w : TWorld) :
    (t.wait_for_completion w = [] ↔ t._is_recording = false) ∧
    (countPolls (t.wait_for_completion w) = 0 ↔ t._is_recording = false) := by
  unfold TmuxRecorder.wait_for_completion
  by_cases h : t._is_recording
  · constructor
    · simp only [h, if_true]
      constructor
      · intro he
        exfalso
        cases hn : w.sessionAliveFor <;>
          rw [hn] at he <;> simp [wait_for_exit_polls] at he
      · intro hc; simp [h] at hc
    · simp only [h, if_true]
      rw [countPolls_wait_for_exit_polls]
      simp [h]
  · simp [h, countPolls]

/-- C5: a video recorder in the recording state stops to an empty result
exactly when the target file is absent or empty; otherwise the result maps
"video" to the output path and its metadata holds the wall-clock duration —
non-negative by construction — formatted hours h underscore minutes m
underscore seconds s. -/
theorem video_stop_result_law (v : VideoRecorder) (w : VWorld)
    (hrec : v.is_recording = true) (hpath : v.output_file ≠ "") :
    ((v.stop_recording w).2.1 = none ↔ w.fileExists = false ∨ w.fileSize = 0) ∧
    (∀ p : RecPayload, (v.stop_recording w).2.1 = some p →
      p.outputs = [("video", v.output_file)] ∧
      ("time", format_hms (duration_seconds w.now v.start_time)) ∈ p.metadata ∧
      0 ≤ duration_seconds w.now v.start_time) := by
  have hne : ¬ (v.is_recording = false) := by simp [hrec]
  by_cases hex : w.fileExists
  · by_cases hsz : w.fileSize = 0
    · constructor
      · simp [VideoRecorder.stop_recording, hne, hpath, hex, hsz]
      · intro p hp
        simp [VideoRecorder.stop_recording, hne, hpath, hex, hsz] at hp
    · have hpos : 0 < w.fileSize := Nat.pos_of_ne_zero hsz
      constructor
      · simp [VideoRecorder.stop_recording, hne, hpath, hex, hsz, hpos]
      · intro p hp
        simp [VideoRecorder.stop_recording, hne, hpath, hex, hpos] at hp
        simp [← hp]
  · constructor
    · simp [VideoRecorder.stop_recording, hne, hpath, hex]
    · intro p hp
      simp [VideoRecorder.stop_recording, hne, hpath, hex] at hp

/-- Witness for C5: the emptiness law instantiated at a recording video
recorder and a world with a non-empty target file. -/
theorem video_stop_result_law_witness :
    ((vRecording.stop_recording wFileOk).2.1 = none ↔
      wFileOk.fileExists = false ∨ wFileOk.fileSize = 0) :=
  (video_stop_result_law vRecording wFileOk (by rfl) (by decide)).1

/-- Rewriting member objects in place leaves identities, order and any
identity-based filtering of the collection unchanged. -/
theorem updateById_filter_map (id : Nat) (f : Member → Member)
    (q : Nat × Member → Bool) (hq : ∀ i m1 m2, q (i, m1) = q (i, m2))
    (l : List (Nat × Member)) :
    ((updateById id f l).filter q).map (fun x => CEv.startCall x.1) =
    (l.filter q).map (fun x => CEv.startCall x.1) := by
  induction l with
  | nil => rfl
  | cons x xs ih =>
    obtain ⟨i, m⟩ := x
    by_cases h : i = id
    · subst h
      rw [show updateById i f ((i, m) :: xs) = (i, f m) :: xs from by
        simp [updateById]]
      rw [List.filter_cons, List.filter_cons, hq i (f m) m]
      by_cases hp : q (i, m)
      · simp [hp]
      · simp [hp]
    · simp only [updateById, if_neg h]
      rw [List.filter_cons, List.filter_cons]
      by_cases hp : q (i, m)
      · simp [hp, ih]
      · simp [hp, ih]

/-- C7: starting a not-yet-recording composite whose video and tmux
references are set invokes start on the video recorder strictly before the
tmux recorder (with the one-second pause between), then starts every other
member in registration order. -/
theorem composite_start_order (c : CompositeRecorder) (vid tid : Nat)
    (hflag : c._is_recording = false)
    (hv : c._video_recorder = some vid)
    (ht : c._tmux_recorder = some tid) :
    c.start_recording.2 =
      CEv.startCall vid :: CEv.sleepOne :: CEv.startCall tid ::
        (c.recorders.filter (fun x =>
            decide (some x.1 ≠ some vid) && decide (some x.1 ≠ some tid))).map
          (fun x => CEv.startCall x.1) := by
  unfold CompositeRecorder.start_recording
  rw [if_neg (by simp [hflag])]
  simp only [hv, ht]
  simp
  rw [updateById_filter_map tid Member.startRec
      (fun x => !decide (x.1 = vid) && !decide (x.1 = tid))
      (fun i m1 m2 => rfl),
    updateById_filter_map vid Member.startRec
      (fun x => !decide (x.1 = vid) && !decide (x.1 = tid))
      (fun i m1 m2 => rfl)]

/-- Witness for C7 at a composite registered through add_recorder with a
tmux recorder, then a video recorder, then one further member. -/
theorem composite_start_order_witness :
    compVT.start_recording.2 =
      CEv.startCall 2 :: CEv.sleepOne :: CEv.startCall 1 ::
        (compVT.recorders.filter (fun x =>
            decide (some x.1 ≠ some 2) && decide (some x.1 ≠ some 1))).map
          (fun x => CEv.startCall x.1) :=
  composite_start_order compVT 2 1 (by rfl) (by rfl) (by rfl)

/-- C1 counterexample: in a recording composite of three members whose second
raises on stop, the composite stop raises as well: the third member is never
stopped and no mapping at all is returned, contrary to the stated
partial-failure tolerance. -/
theorem composite_stop_raise_cex :
    (compABC.stop_recording wAll).2.2 = [CEv.stopCall 1, CEv.stopCall 2] ∧
    CEv.stopCall 3 ∉ (compABC.stop_recording wAll).2.2 ∧
    (compABC.stop_recording wAll).2.1 = Except.error "boom" := by
  refine ⟨rfl, ?_, rfl⟩
  rw [show (compABC.stop_recording wAll).2.2 =
    [CEv.stopCall 1, CEv.stopCall 2] from rfl]
  decide

/-- C1 as amended: when the second of three members raises on stop, the
exception propagates out of the composite stop with the recording flag
already cleared; the third member is never stopped and no mapping is
returned. A member stop that merely returns an empty result does not abort
the loop. -/
theorem composite_stop_second_raises (c : CompositeRecorder) (w : World)
    (i j k : Nat) (fa fb : FakeRec) (mc : Member) (ra : RecResult) (e : String)
    (hrecs : c.recorders = [(i, .fakeRec fa), (j, .fakeRec fb), (k, mc)])
    (hflag : c._is_recording = true)
    (ha : fa.stopSpec = .ok ra)
    (hb : fb.stopSpec = .error e) :
    (c.stop_recording w).2.1 = Except.error e ∧
    (c.stop_recording w).2.2 = [CEv.stopCall i, CEv.stopCall j] ∧
    (c.stop_recording w).1._is_recording = false := by
  unfold CompositeRecorder.stop_recording
  rw [if_neg (by simp [hflag])]
  simp only [hrecs]
  cases ra <;> simp [stop_loop, Member.stopRec, ha, hb]

/-- Witness for the amended C1 at the three concrete doubles. -/
theorem composite_stop_second_raises_witness :
    (compABC.stop_recording wAll).2.1 = Except.error "boom" ∧
    (compABC.stop_recording wAll).2.2 = [CEv.stopCall 1, CEv.stopCall 2] ∧
    (compABC.stop_recording wAll).1._is_recording = false :=
  composite_stop_second_raises compABC wAll 1 2 3 fakeA fakeB
    (Member.fakeRec fakeC) (some payloadA) "boom" rfl rfl rfl rfl

/-- When every member of the front run stops normally and the next member
raises, the stop loop raises after calling stop on exactly that front run and
the raiser, for any accumulator. -/
theorem stop_loop_error_of_front_ok (w : World) (i : Nat) (f : FakeRec)
    (e : String) (post : List (Nat × Member)) (hf : f.stopSpec = .error e) :
    ∀ pre : List (Nat × Member),
      (∀ x ∈ pre, ∃ r, (Member.stopRec w x.2).2 = Except.ok r) →
      ∀ acc : List (String × RecPayload),
        (stop_loop w (pre ++ (i, Member.fakeRec f) :: post) acc).2.1 =
          Except.error e ∧
        (stop_loop w (pre ++ (i, Member.fakeRec f) :: post) acc).2.2 =
          pre.map (fun x => CEv.stopCall x.1) ++ [CEv.stopCall i] := by
  intro pre
  induction pre with
  | nil =>
    intro _ acc
    simp [stop_loop, Member.stopRec, hf]
  | cons x xs ih =>
    intro hpre acc
    obtain ⟨i0, m0⟩ := x
    obtain ⟨r, hr⟩ := hpre (i0, m0) (List.mem_cons_self (i0, m0) xs)
    have hx : Member.stopRec w m0 = ((Member.stopRec w m0).1, Except.ok r) := by
      rw [← hr, Prod.mk.eta]
    have ih2 := ih (fun y hy => hpre y (List.mem_cons_of_mem (i0, m0) hy))
    simp only [List.cons_append, stop_loop]
    rw [hx]
    cases r <;> simp [ih2]

/-- C9: the composite stop clears its flag before stopping any member, so an
exception from one member propagates with the flag already down, the members
after the raiser are never stopped, and the immediately following composite
stop returns the empty mapping without calling any member. -/
theorem composite_stop_clears_flag_before_members (c : CompositeRecorder)
    (w : World) (pre post : List (Nat × Member)) (i : Nat) (f : FakeRec)
    (e : String)
    (hrecs : c.recorders = pre ++ (i, Member.fakeRec f) :: post)
    (hflag : c._is_recording = true)
    (hpre : ∀ x ∈ pre, ∃ r, (Member.stopRec w x.2).2 = Except.ok r)
    (hf : f.stopSpec = .error e) :
    (c.stop_recording w).2.1 = Except.error e ∧
    (c.stop_recording w).2.2 =
      pre.map (fun x => CEv.stopCall x.1) ++ [CEv.stopCall i] ∧
    (c.stop_recording w).1._is_recording = false ∧
    (c.stop_recording w).1.stop_recording w =
      ((c.stop_recording w).1, Except.ok [], []) := by
  have hl := stop_loop_error_of_front_ok w i f e post hf pre hpre []
  have h1 : c.stop_recording w =
      ({ c with _is_recording := false,
                recorders := (stop_loop w c.recorders []).1 },
       (stop_loop w c.recorders []).2.1, (stop_loop w c.recorders []).2.2) := by
    unfold CompositeRecorder.stop_recording
    rw [if_neg (by simp [hflag])]
  rw [h1]
  refine ⟨by rw [hrecs]; exact hl.1, by rw [hrecs]; exact hl.2, rfl, ?_⟩
  unfold CompositeRecorder.stop_recording
  simp

/-- Witness for C9 at the three concrete doubles: the first stops normally,
the second raises, the third is never reached. -/
theorem composite_stop_clears_flag_before_members_witness :
    (compABC.stop_recording wAll).2.1 = Except.error "boom" ∧
    (compABC.stop_recording wAll).2.2 =
      ([(1, Member.fakeRec fakeA)].map (fun x => CEv.stopCall x.1)) ++
        [CEv.stopCall 2] ∧
    (compABC.stop_recording wAll).1._is_recording = false ∧
    (compABC.stop_recording wAll).1.stop_recording wAll =
      ((compABC.stop_recording wAll).1, Except.ok [], []) :=
  composite_stop_clears_flag_before_members compABC wAll
    [(1, Member.fakeRec fakeA)] [(3, Member.fakeRec fakeC)] 2 fakeB "boom"
    rfl rfl
    (fun x hx => by
      rw [List.mem_singleton] at hx
      subst hx
      exact ⟨some payloadA, rfl⟩)
    rfl

end RecLog
